import Mathlib

/-!
# Verification of the labid token-exchange core

Shallow embedding of the labid service's token-exchange pipeline
(`internal/token` and `internal/daplaapi` of github.com/statisticsnorway/labid)
together with proofs of the specified properties.

Conventions of the embedding:
* Go strings are Lean `String`s (all strings involved are ASCII, so Go's
  byte-based slicing agrees with Lean's character-based one).
* Fallible Go functions returning `(T, error)` become `Except String T`
  (the `String` is the Go error's message); injected collaborators
  (JWKS getter, kubernetes client, directory client, token issuer) become
  function parameters, matching the Go code's dependency injection.
* `context.Context` parameters carry no data used by the modelled code and
  are dropped.
* A JWT under construction (`jwt.Builder` of jwx) is a record of the
  registered fields plus the ordered list of custom claims added via
  `builder.Claim`; when the token is built, a later `Claim` with the same
  name overwrites an earlier one, so the effective claim set is given by
  the *last* binding of each name (`claimsLookup`).
* Signing is abstracted: the issued credential is represented by its claim
  set (`jwt.Sign` appends a signature over exactly these claims and does
  not change them).
* `time.Now()` is modelled by an explicit `now : Int` parameter (Unix
  seconds), constant within one call.
-/

namespace LabId

/-! ## Constants (internal/token/common.go) -/

/-- `DaplaGroupAnnotation = "dapla.ssb.no/impersonate-group"` -/
def DaplaGroupAnnotation : String := "dapla.ssb.no/impersonate-group"

/-- `UserNamespacePrefix = "user-ssb-"` -/
def UserNamespacePrefix : String := "user-ssb-"

/-- Go's `strings.HasPrefix(s, pre)`.  Go compares bytes; on the ASCII
strings involved that agrees with this character-list test. -/
def hasPrefix (s pre : String) : Bool := pre.data.isPrefixOf s.data

/-- Go's `strings.TrimPrefix(s, pre)`: returns `s` without the provided
leading prefix string; `s` unchanged when it does not start with `pre`. -/
def trimPrefix (s pre : String) : String :=
  if hasPrefix s pre then s.drop pre.length else s

/-- Go's `fmt.Sprintf("%q", s)` for strings containing no characters that
need escaping: the string wrapped in double quotes. -/
def goQuote (s : String) : String := "\"" ++ s ++ "\""

/-! ## The kubernetes.io identity claim and the token parser
(internal/token/kubernetes.go) -/

/-- `KubernetesIoClaim`: the typed `kubernetes.io` claim extracted from a
validated subject token.  The Go struct nests the service-account name in
an anonymous struct; here it is flattened to one field. -/
structure KubernetesIoClaim where
  ns : String
  serviceAccountName : String
deriving DecidableEq, Repr

/-- The failure points of `kubernetesTokenParser.Parse`, each carrying the
inner error's message.  `getJwks` corresponds to
`fmt.Errorf("get jwks: %w", err)`, which does not wrap `ErrInvalidToken`;
the other two are wrapped with `ErrInvalidToken` via
`fmt.Errorf("%w: ...: %w", ErrInvalidToken, err)`. -/
inductive ParseError where
  | getJwks (inner : String)
  | parseAndValidate (inner : String)
  | unmarshalKubernetesIo (inner : String)
deriving DecidableEq, Repr

/-- `errors.Is(err, ErrInvalidToken)` for the three errors `Parse` can
return: true exactly for the errors built with `ErrInvalidToken` in their
wrap chain. -/
def ParseError.wrapsErrInvalidToken : ParseError → Bool
  | .getJwks _ => false
  | .parseAndValidate _ => true
  | .unmarshalKubernetesIo _ => true

/-- `err.Error()` for the three errors `Parse` can return, following the
`fmt.Errorf` format strings (`ErrInvalidToken.Error()` is
`"invalid subject_token"`). -/
def ParseError.message : ParseError → String
  | .getJwks e => "get jwks: " ++ e
  | .parseAndValidate e => "invalid subject_token: parse and validate token: " ++ e
  | .unmarshalKubernetesIo e => "invalid subject_token: unmarshal kubernetes.io claim: " ++ e

/-- `kubernetesTokenParser.Parse`: fetch the JWKS via the injected getter,
parse and validate the raw token against it, then extract the typed
`kubernetes.io` claim.  The JWKS type `K` and the parsed-token type `T`
are abstract; the three collaborator steps are parameters. -/
def Parse {K T : Type} (getJwks : Except String K)
    (parseJwt : K → String → Except String T)
    (getClaim : T → Except String KubernetesIoClaim)
    (rawToken : String) : Except ParseError KubernetesIoClaim :=
  match getJwks with
  | .error err => .error (.getJwks err)
  | .ok jwks =>
    match parseJwt jwks rawToken with
    | .error err => .error (.parseAndValidate err)
    | .ok token =>
      match getClaim token with
      | .error err => .error (.unmarshalKubernetesIo err)
      | .ok k8sMeta => .ok k8sMeta

/-! ## The JWT builder and the signed-JWT issuer
(internal/token/signedjwt.go) -/

/-- Values of custom claims occurring in this service: the single group
name (`dapla.group`) and the group list (`dapla.groups`); `str` also
carries the `scope` claim. -/
inductive ClaimValue where
  | str (s : String)
  | strList (l : List String)
deriving DecidableEq, Repr

/-- `jwt.Builder`: registered fields plus custom claims in the order they
were added with `builder.Claim`. -/
structure JwtBuilder where
  claims : List (String × ClaimValue) := []
  subject : Option String := none
  issuer : Option String := none
  audience : List String := []
  issuedAt : Option Int := none
  expiration : Option Int := none
deriving DecidableEq, Repr

/-- `builder.Claim(name, v)`: record one more custom claim. -/
def JwtBuilder.claim (b : JwtBuilder) (name : String) (v : ClaimValue) : JwtBuilder :=
  { b with claims := b.claims ++ [(name, v)] }

/-- The effective custom-claim set of a built token: the last binding of
each claim name wins (later `builder.Claim` calls overwrite earlier ones
when the token is built). -/
def claimsLookup (b : JwtBuilder) (name : String) : Option ClaimValue :=
  b.claims.reverse.lookup name

/-- `Mapper`: a claim-contributing step applied to the builder, which may
fail. -/
abbrev Mapper : Type := JwtBuilder → Except String JwtBuilder

/-- `signedJwtIssuer`: the credential issuer's configuration.  The signing
key is opaque (`Option String`, `none` modelling a nil key); `Expiry` is
in seconds (`time.Hour` = 3600). -/
structure signedJwtIssuer where
  SigningKey : Option String
  Issuer : String
  Expiry : Int
deriving Repr

/-- `NewSignedJwtIssuer`: start from the one-hour default expiry, apply
the option functions, then validate the configuration. -/
def NewSignedJwtIssuer (issuer : String) (signingKey : Option String)
    (opts : List (signedJwtIssuer → signedJwtIssuer)) :
    Except String signedJwtIssuer :=
  let sjc := opts.foldl (fun c opt => opt c)
    { SigningKey := signingKey, Expiry := 3600, Issuer := issuer }
  if sjc.SigningKey.isNone then .error "signing key cannot be nil"
  else if sjc.Expiry < 0 then .error "expiry cannot be negative"
  else .ok sjc

/-- The `for _, m := range mappers` loop of `IssueToken`: apply the
mappers in order to the builder, stopping at the first failure. -/
def applyMappers (mappers : List Mapper) (b : JwtBuilder) :
    Except String JwtBuilder :=
  match mappers with
  | [] => .ok b
  | m :: rest =>
    match m b with
    | .error err => .error err
    | .ok b' => applyMappers rest b'

/-- `signedJwtIssuer.IssueToken`: run the mappers over a fresh builder,
then set subject, expiration (`now + Expiry`), issued-at (`now`), issuer
(only when the configured issuer string is non-empty), audience, and the
comma-joined `scope` claim.  The result is the built credential's claim
set (signing abstracted). -/
def IssueToken (c : signedJwtIssuer) (now : Int) (username : String)
    (audience : List String) (scopes : List String) (mappers : List Mapper) :
    Except String JwtBuilder :=
  match applyMappers mappers {} with
  | .error err => .error err
  | .ok b0 =>
    let b1 := { b0 with subject := some username }
    let b2 := { b1 with expiration := some (now + c.Expiry) }
    let b3 := { b2 with issuedAt := some now }
    let b4 := if c.Issuer ≠ "" then { b3 with issuer := some c.Issuer } else b3
    let b5 := { b4 with audience := audience }
    .ok (b5.claim "scope" (.str (String.intercalate "," scopes)))

/-! ## The group resolvers
(internal/token/currentgroup.go, internal/daplaapi/client.go) -/

/-- `corev1.ServiceAccount`, reduced to the only field the code reads:
its annotations (a Go map, modelled as an association list with unique
keys). -/
structure ServiceAccount where
  Annotations : List (String × String)
deriving DecidableEq, Repr

/-- `CurrentGroupMapper`: with the injected service-account getter, the
mapper for `(name, namespace)` queries the service account and, when the
group annotation is present, contributes the `dapla.group` claim;
a missing annotation or a failing query is an error. -/
def CurrentGroupMapper (getSa : String → String → Except String ServiceAccount)
    (name ns : String) : Mapper :=
  fun builder =>
    match getSa name ns with
    | .error err => .error err
    | .ok sa =>
      match sa.Annotations.lookup DaplaGroupAnnotation with
      | some group => .ok (builder.claim "dapla.group" (.str group))
      | none => .error "service account has no associated group"

/-- `Client.AllGroupsPopulator` (internal/daplaapi/client.go): list the
groups of `<username>@ssb.no` via the directory client and contribute
them as the `dapla.groups` claim. -/
def AllGroupsPopulator (listGroups : String → Except String (List String))
    (username : String) : Mapper :=
  fun builder =>
    match listGroups (username ++ "@ssb.no") with
    | .error err => .error err
    | .ok groups => .ok (builder.claim "dapla.groups" (.strList groups))

/-! ## The exchange orchestrator (internal/token ExchangeToken) -/

/-- `api.TokenExchangeRequest` as the handler consumes it: the subject
token, the optional comma-separated scope string, and the audience list. -/
structure TokenExchangeRequest where
  SubjectToken : String
  Scope : Option String
  Audience : List String
deriving DecidableEq, Repr

/-- The handler's response value: a 200 success (`api.ExchangeTokenOK`,
the access token represented by its claim set) or a 4xx caller-error
response (`api.ExchangeToken4XXStatusCode`). -/
inductive ExchangeTokenRes where
  | ok (accessToken : JwtBuilder) (issuedTokenType : String)
      (tokenType : String) (expiresIn : Int)
  | badRequest (statusCode : Int) (error : String)
      (errorDescription : Option String)
deriving DecidableEq, Repr

/-- `tokenHandler`: the injected collaborators.  `ParseToken` is
`kubernetesTokenParser.Parse` in production; `IssueToken` is the
`TokenIssuer` interface's method; the two populators are optional. -/
structure tokenHandler where
  ParseToken : String → Except ParseError KubernetesIoClaim
  IssueToken : String → List String → List String → List Mapper →
    Except String JwtBuilder
  PopulateCurrentGroup : Option (String → String → Mapper) := none
  PopulateAllGroups : Option (String → Mapper) := none

/-- Splitting a character list at every comma, accumulating the current
segment in reverse. -/
def splitCommaAux : List Char → List Char → List String
  | [], acc => [String.mk acc.reverse]
  | c :: rest, acc =>
    if c = ',' then String.mk acc.reverse :: splitCommaAux rest []
    else splitCommaAux rest (c :: acc)

/-- Go's `strings.Split(s, ",")`: the segments of `s` between commas;
the empty string yields `[""]`. -/
def splitComma (s : String) : List String := splitCommaAux s.data []

/-- The `var scopes []string` / `strings.Split` block: an absent scope
yields the empty (nil) list, a present one is split on commas. -/
def splitScopes : Option String → List String
  | none => []
  | some s => splitComma s

/-- `tokenHandler.ExchangeToken`.  A `Except.ok` result is the value the
handler returns with a nil Go error (200 or 4xx); `Except.error` is a
non-nil Go error return, which the generated HTTP layer surfaces as a
server error (5xx). -/
def ExchangeToken (h : tokenHandler) (req : Option TokenExchangeRequest) :
    Except String ExchangeTokenRes :=
  match req with
  | none => .ok (.badRequest 400 "invalid_request" none)
  | some req =>
    let scopes := splitScopes req.Scope
    match h.ParseToken req.SubjectToken with
    | .error err =>
      if err.wrapsErrInvalidToken then
        .ok (.badRequest 400 "invalid_request" (some err.message))
      else
        .error err.message
    | .ok kubernetesClaims =>
      let username := trimPrefix kubernetesClaims.ns UserNamespacePrefix
      if username = kubernetesClaims.ns then
        .error ("invalid user namespace " ++ goQuote kubernetesClaims.ns)
      else
        let mappers : List Mapper :=
          (match h.PopulateCurrentGroup with
           | some p =>
             if scopes.contains "current_group" then
               [p kubernetesClaims.serviceAccountName kubernetesClaims.ns]
             else []
           | none => []) ++
          (match h.PopulateAllGroups with
           | some p =>
             if scopes.contains "all_groups" then [p username] else []
           | none => [])
        match h.IssueToken username req.Audience scopes mappers with
        | .error _ => .error "unexpected error issuing token"
        | .ok issuedToken =>
          .ok (.ok issuedToken "urn:ietf:params:oauth:grant-type:jwt"
            "Bearer" 3600)

/-- Whether an exchange outcome is a caller-error (4xx) response: the
handler returned an `api.ExchangeToken4XXStatusCode` value. -/
def isCallerErrorResponse : Except String ExchangeTokenRes → Bool
  | .ok (.badRequest _ _ _) => true
  | _ => false

/-- The `expires_in` field of a successful exchange outcome. -/
def responseExpiresIn : Except String ExchangeTokenRes → Option Int
  | .ok (.ok _ _ _ e) => some e
  | _ => none

/-- The subject claim of the credential of a successful exchange
outcome. -/
def responseSubject : Except String ExchangeTokenRes → Option (Option String)
  | .ok (.ok b _ _ _) => some b.subject
  | _ => none

/-! ## The HTTP layer's request validation (generated package api/oas) -/

/-- The fixed grant type of RFC 8693 token exchange. -/
def grantTypeTokenExchange : String :=
  "urn:ietf:params:oauth:grant-type:token-exchange"

/-- The fixed subject-token type accepted by the service. -/
def subjectTokenTypeIdToken : String :=
  "urn:ietf:params:oauth:grant-type:id_token"

/-- A raw exchange form as received on the wire, before validation. -/
structure RawTokenExchangeForm where
  grant_type : Option String
  subject_token_type : Option String
  subject_token : Option String
  scope : Option String
  audience : List String
deriving DecidableEq, Repr

/-- Modelled from the spec: the request decoding and validation performed
by the generated HTTP layer (package `api/oas`, generated from the
OpenAPI document; not among the core sources).  A request whose grant
type or subject-token type differs from the fixed constants, or whose
subject token is missing, is rejected before the handler runs. -/
def decodeTokenExchangeRequest (r : RawTokenExchangeForm) :
    Option TokenExchangeRequest :=
  match r.grant_type, r.subject_token_type, r.subject_token with
  | some gt, some stt, some st =>
    if gt = grantTypeTokenExchange ∧ stt = subjectTokenTypeIdToken then
      some { SubjectToken := st, Scope := r.scope, Audience := r.audience }
    else none
  | _, _, _ => none

/-- Modelled from the spec: the full exchange operation as seen by the
caller — validate the raw form (rejecting malformed requests with the
`InvalidRequest` caller error), then run the handler. -/
def HandleTokenExchange (h : tokenHandler) (r : RawTokenExchangeForm) :
    Except String ExchangeTokenRes :=
  match decodeTokenExchangeRequest r with
  | none => .ok (.badRequest 400 "invalid_request" none)
  | some req => ExchangeToken h (some req)

/-! ## Claim-set equivalence -/

/-- Two built credentials carry identical claims: all registered fields
agree and every custom-claim name resolves to the same value. -/
def ClaimsEquiv (b₁ b₂ : JwtBuilder) : Prop :=
  b₁.subject = b₂.subject ∧ b₁.issuer = b₂.issuer ∧
  b₁.audience = b₂.audience ∧ b₁.issuedAt = b₂.issuedAt ∧
  b₁.expiration = b₂.expiration ∧
  ∀ name, claimsLookup b₁ name = claimsLookup b₂ name

/-- Whether an issuance outcome is a success. -/
def exceptIsOk : Except String JwtBuilder → Bool
  | .ok _ => true
  | .error _ => false

/-! ## Helper lemmas -/

/-- `strings.TrimPrefix` is the identity when the prefix is absent. -/
theorem trimPrefix_of_not_prefix {s pre : String}
    (h : hasPrefix s pre = false) : trimPrefix s pre = s := by
  simp [ trimPrefix, h]

/-- Running the mapper loop over a concatenation: once the first list has
succeeded, the loop continues with the rest from its result. -/
theorem applyMappers_append (pre : List Mapper) :
    ∀ (b b' : JwtBuilder), applyMappers pre b = .ok b' →
      ∀ ms : List Mapper, applyMappers (pre ++ ms) b = applyMappers ms b' := by
  induction pre with
  | nil =>
    intro b b' h ms
    simp [applyMappers] at h
    simp [h]
  | cons m rest ih =>
    intro b b' h ms
    simp only [applyMappers] at h
    rcases hm : m b with e | b₁ <;> rw [hm] at h
    · exact absurd h (by simp)
    · simpa [applyMappers, hm] using ih b₁ b' h ms

/-! ## Theorems for the claims -/

/-- C1 (amended): for every exchange request whose subject token
validates but whose `kubernetes.io` namespace does not start with the
fixed prefix `"user-ssb-"`, `ExchangeToken` fails with the server-side
error `invalid user namespace "<ns>"` — not a caller-error (4xx)
response, and in particular distinct from the `InvalidToken` 4xx
mapping — and no signed credential is issued: the token issuer is never
invoked (the outcome is the same for every issuer). -/
theorem exchangeToken_invalid_namespace (h : tokenHandler)
    (req : TokenExchangeRequest) (kc : KubernetesIoClaim)
    (hparse : h.ParseToken req.SubjectToken = .ok kc)
    (hpre : hasPrefix kc.ns UserNamespacePrefix = false) :
    ExchangeToken h (some req)
      = .error ("invalid user namespace " ++ goQuote kc.ns)
    ∧ isCallerErrorResponse (ExchangeToken h (some req)) = false
    ∧ ∀ issue, ExchangeToken { h with IssueToken := issue } (some req)
        = .error ("invalid user namespace " ++ goQuote kc.ns) := by
  have hmain : ∀ issue,
      ExchangeToken { h with IssueToken := issue } (some req)
        = .error ("invalid user namespace " ++ goQuote kc.ns) := by
    intro issue
    simp [ExchangeToken, hparse, trimPrefix_of_not_prefix hpre]
  have h₀ : ExchangeToken h (some req)
      = .error ("invalid user namespace " ++ goQuote kc.ns) := by
    have := hmain h.IssueToken
    simpa using this
  exact ⟨h₀, by rw [h₀]; rfl, hmain⟩

def hC1 : tokenHandler :=
  { ParseToken := fun _ => .ok { ns := "wrong-ns", serviceAccountName := "sa" },
    IssueToken := fun _ _ _ _ => .error "unused" }

def reqC1 : TokenExchangeRequest :=
  { SubjectToken := "tok", Scope := none, Audience := [] }

/-- C1 counterexample: at a concrete request whose validated namespace
`"wrong-ns"` lacks the prefix, the failure is a plain server-side error,
not a caller-error (4xx) response as the claim states. -/
theorem exchangeToken_invalid_namespace_cex :
    ExchangeToken hC1 (some reqC1) = .error "invalid user namespace \"wrong-ns\""
    ∧ isCallerErrorResponse (ExchangeToken hC1 (some reqC1)) = false := by
  constructor <;> rfl

/-- C1 witness. -/
theorem exchangeToken_invalid_namespace_witness :
    ExchangeToken hC1 (some reqC1)
      = .error ("invalid user namespace " ++ goQuote "wrong-ns") :=
  (exchangeToken_invalid_namespace hC1 reqC1
    { ns := "wrong-ns", serviceAccountName := "sa" } rfl (by decide)).1

/-- C2: the validator's failures partition into exactly two kinds. If
the key-set fetch fails, `Parse` fails with an error not wrapping
`ErrInvalidToken`; if the key-set fetch succeeded, then any failure of
`Parse` (signature/temporal validation, syntactic parsing, or
`kubernetes.io` claim extraction) wraps `ErrInvalidToken`; and
`ExchangeToken` answers a parse failure with a 4xx response if and only
if the error wraps `ErrInvalidToken`. -/
theorem parse_failure_taxonomy {K T : Type} (getJwks : Except String K)
    (parseJwt : K → String → Except String T)
    (getClaim : T → Except String KubernetesIoClaim) (rawToken : String) :
    (∀ e, getJwks = .error e →
      Parse getJwks parseJwt getClaim rawToken = .error (.getJwks e)
      ∧ ParseError.wrapsErrInvalidToken (.getJwks e) = false)
    ∧ (∀ jwks err, getJwks = .ok jwks →
      Parse getJwks parseJwt getClaim rawToken = .error err →
      err.wrapsErrInvalidToken = true)
    ∧ (∀ (h : tokenHandler) (req : TokenExchangeRequest) err,
      h.ParseToken req.SubjectToken = .error err →
      (isCallerErrorResponse (ExchangeToken h (some req)) = true ↔
        err.wrapsErrInvalidToken = true)) := by
  refine ⟨?_, ?_, ?_⟩
  · intro e he
    rw [he]
    exact ⟨rfl, rfl⟩
  · intro jwks err hj hp
    rw [hj] at hp
    simp only [Parse] at hp
    split at hp
    · cases hp
      rfl
    · split at hp
      · cases hp
        rfl
      · cases hp
  · intro h req err hparse
    rcases hw : err.wrapsErrInvalidToken <;>
      simp [ExchangeToken, hparse, hw, isCallerErrorResponse]

/-- C2 witness. -/
theorem parse_failure_taxonomy_witness :
    Parse (Except.error "jwks down" : Except String Unit)
      (fun _ _ => (Except.ok () : Except String Unit))
      (fun _ => Except.ok { ns := "user-ssb-kari", serviceAccountName := "sa" })
      "raw" = Except.error (.getJwks "jwks down")
    ∧ ParseError.wrapsErrInvalidToken (.getJwks "jwks down") = false :=
  (parse_failure_taxonomy (Except.error "jwks down")
    (fun _ _ => (Except.ok () : Except String Unit))
    (fun _ => Except.ok { ns := "user-ssb-kari", serviceAccountName := "sa" })
    "raw").1 "jwks down" rfl

/-- C3 (amended): the `expires_in` field of every successful exchange
response equals 3600 — the handler hardcodes one hour — regardless of
the lifetime the credential issuer is configured with; it matches the
issuer's configured lifetime only when that lifetime is the default one
hour. -/
theorem exchangeToken_expiresIn_constant (h : tokenHandler)
    (req : Option TokenExchangeRequest) (b : JwtBuilder)
    (itt tt : String) (e : Int)
    (hok : ExchangeToken h req = .ok (.ok b itt tt e)) : e = 3600 := by
  cases req with
  | none => simp [ExchangeToken] at hok
  | some r =>
    simp only [ExchangeToken] at hok
    split at hok
    · split at hok
      · simp at hok
      · cases hok
    · split at hok
      · cases hok
      · split at hok
        · cases hok
        · cases hok
          rfl

def cC3 : signedJwtIssuer :=
  { SigningKey := some "key", Issuer := "labid", Expiry := 7200 }

def hC3 : tokenHandler :=
  { ParseToken := fun _ => .ok { ns := "user-ssb-kari", serviceAccountName := "sa" },
    IssueToken := IssueToken cC3 0 }

def reqC3 : TokenExchangeRequest :=
  { SubjectToken := "tok", Scope := none, Audience := [] }

/-- C3 counterexample: with the issuer configured for a two-hour
lifetime (7200 s), a successful exchange still answers
`expires_in = 3600`, which differs from the issuer's configured
lifetime. -/
theorem expiresIn_not_configured_lifetime_cex :
    responseExpiresIn (ExchangeToken hC3 (some reqC3)) = some 3600
    ∧ cC3.Expiry = 7200
    ∧ responseExpiresIn (ExchangeToken hC3 (some reqC3)) ≠ some cC3.Expiry := by
  refine ⟨rfl, rfl, ?_⟩
  intro hcontra
  simp only [show responseExpiresIn (ExchangeToken hC3 (some reqC3)) = some 3600 from rfl,
    show cC3.Expiry = 7200 from rfl] at hcontra
  exact absurd (Option.some.inj hcontra) (by decide)

def bC3 : JwtBuilder :=
  { claims := [("scope", .str "")], subject := some "kari",
    issuer := some "labid", audience := [], issuedAt := some 0,
    expiration := some 7200 }

/-- C3 witness. -/
theorem exchangeToken_expiresIn_constant_witness :
    ExchangeToken hC3 (some reqC3)
      = .ok (.ok bC3 "urn:ietf:params:oauth:grant-type:jwt" "Bearer" 3600)
    ∧ (3600 : Int) = 3600 :=
  ⟨rfl, exchangeToken_expiresIn_constant hC3 (some reqC3) bC3
    "urn:ietf:params:oauth:grant-type:jwt" "Bearer" 3600 rfl⟩

/-- C4: a failing mapper aborts issuance.  If the mappers before `m`
succeed (in the order supplied) and `m` fails, `IssueToken` returns
`m`'s error, no credential is built (no partial credential is issued),
the mappers after `m` are never applied (the outcome is the same for
every continuation), and `ExchangeToken` answers an issuance failure
with an error rather than a success response. -/
theorem issueToken_mapper_error_aborts (c : signedJwtIssuer) (now : Int)
    (username : String) (audience scopes : List String)
    (pre rest rest' : List Mapper) (m : Mapper) (b : JwtBuilder) (e : String)
    (hpre : applyMappers pre {} = .ok b)
    (hm : m b = .error e) :
    IssueToken c now username audience scopes (pre ++ m :: rest) = .error e
    ∧ IssueToken c now username audience scopes (pre ++ m :: rest)
      = IssueToken c now username audience scopes (pre ++ m :: rest')
    ∧ ∀ (h : tokenHandler) (req : TokenExchangeRequest)
        (kc : KubernetesIoClaim),
      h.ParseToken req.SubjectToken = .ok kc →
      trimPrefix kc.ns UserNamespacePrefix ≠ kc.ns →
      (∀ u a s ms, h.IssueToken u a s ms = .error e) →
      ExchangeToken h (some req) = .error "unexpected error issuing token" := by
  have key : ∀ tail : List Mapper,
      applyMappers (pre ++ m :: tail) {} = .error e := by
    intro tail
    rw [applyMappers_append pre {} b hpre (m :: tail)]
    simp [applyMappers, hm]
  refine ⟨?_, ?_, ?_⟩
  · simp [IssueToken, key rest]
  · simp [IssueToken, key rest, key rest']
  · intro h req kc hparse hns hiss
    simp [ExchangeToken, hparse, hns, hiss]

def mFailC4 : Mapper := fun _ => .error "boom"

def mOkC4 : Mapper := fun b => .ok (b.claim "dapla.group" (.str "g"))

def cC4 : signedJwtIssuer :=
  { SigningKey := some "key", Issuer := "labid", Expiry := 3600 }

/-- C4 witness. -/
theorem issueToken_mapper_error_aborts_witness :
    IssueToken cC4 0 "kari" [] [] ([] ++ mFailC4 :: [mOkC4]) = .error "boom" :=
  (issueToken_mapper_error_aborts cC4 0 "kari" [] [] [] [mOkC4] []
    mFailC4 {} "boom" rfl rfl).1

/-- C5: a request with a malformed grant type (or wrong
subject-token-type, or missing subject token) is rejected with the
`InvalidRequest` caller error by the HTTP layer's validation, before the
token parser, the issuer, or any group resolver is invoked: the outcome
is the same for every handler, so no token parse, key-set fetch, or
upstream call can have occurred. -/
theorem malformed_request_rejected_before_upstream (h h' : tokenHandler)
    (r : RawTokenExchangeForm)
    (hbad : r.grant_type ≠ some grantTypeTokenExchange
      ∨ r.subject_token_type ≠ some subjectTokenTypeIdToken
      ∨ r.subject_token = none) :
    HandleTokenExchange h r = .ok (.badRequest 400 "invalid_request" none)
    ∧ HandleTokenExchange h r = HandleTokenExchange h' r := by
  have hdec : decodeTokenExchangeRequest r = none := by
    unfold decodeTokenExchangeRequest
    rcases hg : r.grant_type with _ | gt <;>
      rcases hs : r.subject_token_type with _ | stt <;>
      rcases ht : r.subject_token with _ | st <;>
      simp_all <;> tauto
  constructor <;> simp [HandleTokenExchange, hdec]

def hC5a : tokenHandler :=
  { ParseToken := fun _ => .error (.getJwks "jwks down"),
    IssueToken := fun _ _ _ _ => .error "unused" }

def hC5b : tokenHandler :=
  { ParseToken := fun _ => .ok { ns := "user-ssb-kari", serviceAccountName := "sa" },
    IssueToken := IssueToken cC4 0 }

def rC5 : RawTokenExchangeForm :=
  { grant_type := some "authorization_code",
    subject_token_type := some subjectTokenTypeIdToken,
    subject_token := some "tok", scope := none, audience := [] }

/-- C5 witness. -/
theorem malformed_request_rejected_before_upstream_witness :
    HandleTokenExchange hC5a rC5 = .ok (.badRequest 400 "invalid_request" none)
    ∧ HandleTokenExchange hC5a rC5 = HandleTokenExchange hC5b rC5 :=
  malformed_request_rejected_before_upstream hC5a hC5b rC5
    (Or.inl (by decide))

/-- C6: the claims of a successfully issued credential.  `b0` is the
result of the mappers (which, in this service, contribute only `dapla.*`
claims and leave the issuer field unset, whence `hiss`). -/
theorem issueToken_success_claims (c : signedJwtIssuer) (now : Int)
    (username : String) (audience scopes : List String)
    (mappers : List Mapper) (b0 : JwtBuilder)
    (hm : applyMappers mappers {} = .ok b0)
    (hiss : b0.issuer = none) :
    exceptIsOk (IssueToken c now username audience scopes mappers) = true
    ∧ ∀ b, IssueToken c now username audience scopes mappers = .ok b →
      b.subject = some username
      ∧ b.issuer = (if c.Issuer = "" then none else some c.Issuer)
      ∧ b.issuedAt = some now
      ∧ b.expiration = some (now + c.Expiry)
      ∧ b.audience = audience
      ∧ claimsLookup b "scope"
        = some (.str (String.intercalate "," scopes)) := by
  simp only [IssueToken, hm]
  constructor
  · rfl
  · intro b hb
    injection hb with hb'
    subst hb'
    by_cases hI : c.Issuer = "" <;>
      simp [JwtBuilder.claim, claimsLookup, List.lookup, hI, hiss]

def cC6 : signedJwtIssuer :=
  { SigningKey := some "key", Issuer := "labid", Expiry := 3600 }

/-- C6 witness. -/
theorem issueToken_success_claims_witness :
    exceptIsOk (IssueToken cC6 100 "kari" ["aud"] ["current_group"] []) = true :=
  (issueToken_success_claims cC6 100 "kari" ["aud"] ["current_group"] []
    {} rfl rfl).1

/-- C7: the current-group mapper contributes `dapla.group` equal to the
`dapla.ssb.no/impersonate-group` annotation when present, fails with the
group-not-assigned error when the annotation is absent, and fails with
the getter's error when the metadata query errors (contributing no
claim). -/
theorem currentGroupMapper_cases
    (getSa : String → String → Except String ServiceAccount)
    (name ns : String) (b : JwtBuilder) :
    (∀ e, getSa name ns = .error e →
      CurrentGroupMapper getSa name ns b = .error e)
    ∧ (∀ sa group, getSa name ns = .ok sa →
      sa.Annotations.lookup DaplaGroupAnnotation = some group →
      CurrentGroupMapper getSa name ns b
        = .ok (b.claim "dapla.group" (.str group)))
    ∧ (∀ sa, getSa name ns = .ok sa →
      sa.Annotations.lookup DaplaGroupAnnotation = none →
      CurrentGroupMapper getSa name ns b
        = .error "service account has no associated group") := by
  refine ⟨?_, ?_, ?_⟩
  · intro e he
    simp [CurrentGroupMapper, he]
  · intro sa group hsa hann
    simp [CurrentGroupMapper, hsa, hann]
  · intro sa hsa hann
    simp [CurrentGroupMapper, hsa, hann]

def saC7 : ServiceAccount :=
  { Annotations := [( DaplaGroupAnnotation, "dapla-felles-developers")] }

def getSaC7 : String → String → Except String ServiceAccount :=
  fun _ _ => .ok saC7

/-- C7 witness. -/
theorem currentGroupMapper_cases_witness :
    CurrentGroupMapper getSaC7 "sa" "user-ssb-kari" {}
      = .ok (JwtBuilder.claim {} "dapla.group" (.str "dapla-felles-developers")) :=
  (currentGroupMapper_cases getSaC7 "sa" "user-ssb-kari" {}).2.1
    saC7 "dapla-felles-developers" rfl (by simp [saC7])

/-- Looking a name up is unaffected by swapping two adjacent bindings of
distinct names. -/
theorem lookup_swap_of_ne {α : Type} (n₁ n₂ : String) (v₁ v₂ : α)
    (t : List (String × α)) (hne : n₁ ≠ n₂) (name : String) :
    List.lookup name ((n₁, v₁) :: (n₂, v₂) :: t)
      = List.lookup name ((n₂, v₂) :: (n₁, v₁) :: t) := by
  rcases hb1 : name == n₁ <;> rcases hb2 : name == n₂ <;>
    simp [List.lookup, hb1, hb2]
  exact absurd ((eq_of_beq hb1).symm.trans (eq_of_beq hb2)) hne

/-- If two mapper lists succeed with builders carrying identical claims
and the same issuer field, issuing from either yields credentials with
identical claims. -/
theorem issueToken_claimsEquiv (c : signedJwtIssuer) (now : Int)
    (username : String) (audience scopes : List String)
    (ms₁ ms₂ : List Mapper) (a₁ a₂ : JwtBuilder)
    (hm₁ : applyMappers ms₁ {} = .ok a₁)
    (hm₂ : applyMappers ms₂ {} = .ok a₂)
    (hissr : a₁.issuer = a₂.issuer)
    (hcl : ∀ name, claimsLookup a₁ name = claimsLookup a₂ name) :
    ∀ b₁ b₂, IssueToken c now username audience scopes ms₁ = .ok b₁ →
      IssueToken c now username audience scopes ms₂ = .ok b₂ →
      ClaimsEquiv b₁ b₂ := by
  intro b₁ b₂ h₁ h₂
  simp only [IssueToken, hm₁] at h₁
  simp only [IssueToken, hm₂] at h₂
  injection h₁ with h₁'
  injection h₂ with h₂'
  subst h₁'
  subst h₂'
  by_cases hI : c.Issuer = "" <;>
    refine ⟨by simp [JwtBuilder.claim, hI],
      by simp [JwtBuilder.claim, hI, hissr],
      by simp [JwtBuilder.claim, hI],
      by simp [JwtBuilder.claim, hI],
      by simp [JwtBuilder.claim, hI], ?_⟩ <;>
    · intro name
      have hgoal := hcl name
      simp only [claimsLookup] at hgoal
      rcases hb : name == "scope" <;>
        simp [claimsLookup, JwtBuilder.claim, List.lookup,
          List.reverse_append, hb, hI, hgoal]

/-- C8: when the current-group mapper and the all-groups mapper both
succeed, the issued credential's claims do not depend on the order the
two mappers are supplied in: they write the distinct claim names
`dapla.group` and `dapla.groups` and neither reads the other's output. -/
theorem mapper_order_irrelevant (c : signedJwtIssuer) (now : Int)
    (username : String) (audience scopes : List String)
    (getSa : String → String → Except String ServiceAccount)
    (listGroups : String → Except String (List String))
    (saName ns uname : String) (sa : ServiceAccount)
    (group : String) (groups : List String)
    (hsa : getSa saName ns = .ok sa)
    (hann : sa.Annotations.lookup DaplaGroupAnnotation = some group)
    (hlg : listGroups (uname ++ "@ssb.no") = .ok groups) :
    exceptIsOk (IssueToken c now username audience scopes
      [ CurrentGroupMapper getSa saName ns,
        AllGroupsPopulator listGroups uname]) = true
    ∧ exceptIsOk (IssueToken c now username audience scopes
      [ AllGroupsPopulator listGroups uname,
        CurrentGroupMapper getSa saName ns]) = true
    ∧ ∀ b₁ b₂,
      IssueToken c now username audience scopes
        [ CurrentGroupMapper getSa saName ns,
          AllGroupsPopulator listGroups uname] = .ok b₁ →
      IssueToken c now username audience scopes
        [ AllGroupsPopulator listGroups uname,
          CurrentGroupMapper getSa saName ns] = .ok b₂ →
      ClaimsEquiv b₁ b₂ := by
  have h12 : applyMappers
      [ CurrentGroupMapper getSa saName ns,
        AllGroupsPopulator listGroups uname] {}
      = .ok { claims := [("dapla.group", .str group),
                         ("dapla.groups", .strList groups)] } := by
    simp [applyMappers, CurrentGroupMapper, AllGroupsPopulator,
      hsa, hann, hlg, JwtBuilder.claim]
  have h21 : applyMappers
      [ AllGroupsPopulator listGroups uname,
        CurrentGroupMapper getSa saName ns] {}
      = .ok { claims := [("dapla.groups", .strList groups),
                         ("dapla.group", .str group)] } := by
    simp [applyMappers, CurrentGroupMapper, AllGroupsPopulator,
      hsa, hann, hlg, JwtBuilder.claim]
  refine ⟨?_, ?_, ?_⟩
  · simp only [IssueToken, h12]
    rfl
  · simp only [IssueToken, h21]
    rfl
  · have hclA : ∀ name,
        claimsLookup { claims := [("dapla.group", ClaimValue.str group),
          ("dapla.groups", ClaimValue.strList groups)] } name
        = claimsLookup { claims := [("dapla.groups", ClaimValue.strList groups),
          ("dapla.group", ClaimValue.str group)] } name := by
      intro name
      exact lookup_swap_of_ne "dapla.groups" "dapla.group"
        (ClaimValue.strList groups) (ClaimValue.str group) [] (by decide) name
    exact issueToken_claimsEquiv c now username audience scopes _ _ _ _
      h12 h21 rfl hclA

def cC8 : signedJwtIssuer :=
  { SigningKey := some "key", Issuer := "labid", Expiry := 3600 }

def saC8 : ServiceAccount :=
  { Annotations := [( DaplaGroupAnnotation, "dapla-felles-developers")] }

def getSaC8 : String → String → Except String ServiceAccount :=
  fun _ _ => .ok saC8

def listGroupsC8 : String → Except String (List String) :=
  fun _ => .ok ["g1", "g2"]

/-- C8 witness. -/
theorem mapper_order_irrelevant_witness :
    exceptIsOk (IssueToken cC8 0 "kari" [] ["current_group", "all_groups"]
      [ CurrentGroupMapper getSaC8 "sa" "user-ssb-kari",
        AllGroupsPopulator listGroupsC8 "kari"]) = true :=
  (mapper_order_irrelevant cC8 0 "kari" [] ["current_group", "all_groups"]
    getSaC8 listGroupsC8 "sa" "user-ssb-kari" "kari" saC8
    "dapla-felles-developers" ["g1", "g2"] rfl (by simp [saC8]) rfl).1

/-- C9: issuance is deterministic in its inputs: for a fixed issuer
configuration, timestamp, username, audience and scopes, two mapper
lists with the same results yield credentials with identical claims (the
signature, applied over these claims afterwards, is not modelled and may
differ). -/
theorem issueToken_deterministic (c : signedJwtIssuer) (now : Int)
    (username : String) (audience scopes : List String)
    (ms₁ ms₂ : List Mapper)
    (hm : applyMappers ms₁ {} = applyMappers ms₂ {}) :
    IssueToken c now username audience scopes ms₁
      = IssueToken c now username audience scopes ms₂ := by
  simp only [IssueToken, hm]

def cC9 : signedJwtIssuer :=
  { SigningKey := some "key", Issuer := "labid", Expiry := 3600 }

def mC9 : Mapper := fun b => .ok (b.claim "dapla.group" (.str "g"))

/-- C9 witness. -/
theorem issueToken_deterministic_witness :
    IssueToken cC9 50 "kari" ["aud"] ["current_group"] [mC9]
      = IssueToken cC9 50 "kari" ["aud"] ["current_group"]
          [(fun b => .ok b), mC9] :=
  issueToken_deterministic cC9 50 "kari" ["aud"] ["current_group"]
    [mC9] [(fun b => .ok b), mC9] rfl

/-- The handler of C10: no populators are configured and the subject
token validates to a `kubernetes.io` claim whose namespace is exactly
the prefix `"user-ssb-"`. -/
def hC10 (c : signedJwtIssuer) (now : Int) (saName : String) : tokenHandler :=
  { ParseToken := fun _ =>
      .ok { ns := UserNamespacePrefix, serviceAccountName := saName },
    IssueToken := IssueToken c now,
    PopulateCurrentGroup := none, PopulateAllGroups := none }

/-- C10: a validated token whose namespace is exactly `"user-ssb-"` is
not rejected: stripping the prefix yields the empty username, which
differs from the namespace, so the check passes and a credential is
issued whose subject claim is the empty string. -/
theorem exchangeToken_prefix_only_namespace (c : signedJwtIssuer)
    (now : Int) (saName subjectToken : String) (scope : Option String)
    (aud : List String) :
    responseSubject (ExchangeToken (hC10 c now saName)
      (some { SubjectToken := subjectToken, Scope := scope, Audience := aud }))
      = some (some "")
    ∧ isCallerErrorResponse (ExchangeToken (hC10 c now saName)
      (some { SubjectToken := subjectToken, Scope := scope, Audience := aud }))
      = false := by
  have hns : trimPrefix UserNamespacePrefix UserNamespacePrefix = "" := rfl
  have hne : ("" = UserNamespacePrefix) = False := by
    simp [ UserNamespacePrefix]
  constructor <;>
    · simp only [ExchangeToken, hC10, hns, hne, if_false, IssueToken,
        applyMappers, List.nil_append]
      by_cases hI : c.Issuer = "" <;>
        simp [hI, responseSubject, isCallerErrorResponse, JwtBuilder.claim]

end LabId
